import Mathlib

/-
  Verification of the analysis-session orchestration frontend of the
  explain-source repository.

  The definitions below are a shallow embedding of the TypeScript sources:
  - src/unnamed/part_016 (types/ticket.ts): the data model and the
    isValidLogMessageType guard;
  - src/unnamed/part_003 (stores/ticketStore.ts, newer revision): the ticket
    store operations setTicketAnalyzing, addTicketLog, setAnalysisResult,
    startAnalysis, stopAnalysis, loadTicketLogs, loadMoreTicketLogs,
    stopAnalysisTimeout, and the 5-minute timeout callback;
  - src/app/projects/[projectId]/page.tsx: the WebSocket subscribe handler;
  - src/components/LogViewer.tsx: parseLogContent / mergeAssistantLogs;
  - src/rust-backend/migrations/003_add_auth_and_plans.sql: the plan_approvals
    schema.

  Zustand store state is modelled as an explicit record threaded through the
  operations.  JavaScript Map objects are modelled as association lists with
  Map.set / Map.delete semantics; setTimeout handles are modelled by the set of
  ticket ids having an armed timeout (clearTimeout = removal, firing is only
  possible while armed).  Wall-clock instants (Date.now, toISOString) are
  abstracted as a Nat parameter.
-/

namespace ExplainSource

/-- StructuredLog from src/unnamed/part_016 (camelCase frontend form).
Timestamps are abstract instants (Nat). -/
structure StructuredLog where
  id : String
  ticketId : String
  messageType : String
  content : String
  rawLog : Option String := none
  metadata : Option (List (String × String)) := none
  timestamp : Nat
  deriving DecidableEq

/-- RawStructuredLog from src/unnamed/part_016: the snake_case wire form
delivered by the backend over REST and WebSocket. -/
structure RawStructuredLog where
  id : String
  ticket_id : String
  message_type : String
  content : String
  raw_log : Option String := none
  metadata : Option (List (String × String)) := none
  timestamp : Nat
  deriving DecidableEq

/-- The snake_case-to-camelCase conversion applied both by loadTicketLogs
(src/unnamed/part_003 lines 323-331) and by the structured-log case of the
subscribe handler (src/app/projects/[projectId]/page.tsx lines 141-149). -/
def convertLog (r : RawStructuredLog) : StructuredLog :=
  { id := r.id
  , ticketId := r.ticket_id
  , messageType := r.message_type
  , content := r.content
  , rawLog := r.raw_log
  , metadata := r.metadata
  , timestamp := r.timestamp }

/-- Ticket from src/unnamed/part_016.  The mode field is optional because
startAnalysis reads it as `ticket.mode || 'ask'`. -/
structure Ticket where
  id : String
  projectId : String
  title : String
  description : String
  status : String
  createdAt : Nat := 0
  updatedAt : Option Nat := none
  codeContext : Option String := none
  analysisResult : Option String := none
  isAnalyzing : Bool := false
  logs : List StructuredLog := []
  mode : Option String := none
  planContent : Option String := none
  planCreatedAt : Option Nat := none
  requiredApprovals : Nat := 2
  deriving DecidableEq

/-- TicketPaginationState from src/unnamed/part_003 lines 128-132. -/
structure TicketPaginationState where
  loadedCount : Nat
  hasMore : Bool
  total : Nat
  deriving DecidableEq

/-- The start-code-analysis WebSocket message built by startAnalysis
(src/unnamed/part_003 lines 287-294). -/
structure StartAnalysisMessage where
  type : String
  ticketId : String
  codeContext : String
  question : String
  projectId : String
  mode : String
  deriving DecidableEq

/-- The mutable state of the zustand ticket store (src/unnamed/part_003):
the ticket list, the analysisTimeouts map (modelled as the set of ticket ids
with an armed fallback timeout) and the logPagination map. -/
structure TicketStoreState where
  tickets : List Ticket
  pendingTimeouts : List String := []
  logPagination : List (String × TicketPaginationState) := []
  deriving DecidableEq

/-- Map.delete on the analysisTimeouts map keyed by ticket id, together with
the clearTimeout of the stored handle. -/
def timeoutRemove (ticketId : String) (l : List String) : List String :=
  l.filter fun x => x != ticketId

/-- Map.set on the analysisTimeouts map: at most one armed timeout per key. -/
def timeoutSet (ticketId : String) (l : List String) : List String :=
  ticketId :: timeoutRemove ticketId l

/-- Map.set on the logPagination map. -/
def paginationSet (ticketId : String) (p : TicketPaginationState)
    (l : List (String × TicketPaginationState)) : List (String × TicketPaginationState) :=
  (ticketId, p) :: l.filter fun kv => kv.1 != ticketId

/-- Map.get on the logPagination map. -/
def paginationGet (ticketId : String)
    (l : List (String × TicketPaginationState)) : Option TicketPaginationState :=
  (l.find? fun kv => kv.1 == ticketId).map Prod.snd

/-- `state.tickets.find(t => t.id === ticketId)`. -/
def findTicket (s : TicketStoreState) (ticketId : String) : Option Ticket :=
  s.tickets.find? fun t => t.id == ticketId

/-- setTicketAnalyzing (src/unnamed/part_003 lines 192-207): when stopping,
first clears any armed timeout, then maps the flag onto the matching ticket. -/
def setTicketAnalyzing (s : TicketStoreState) (id : String) (isAnalyzing : Bool) :
    TicketStoreState :=
  let pending := if isAnalyzing then s.pendingTimeouts else timeoutRemove id s.pendingTimeouts
  { s with
    pendingTimeouts := pending
  , tickets := s.tickets.map fun ticket =>
      if ticket.id == id then { ticket with isAnalyzing := isAnalyzing } else ticket }

/-- addTicketLog (src/unnamed/part_003 lines 209-216, identical in
src/stores/ticketStore.ts lines 76-83): appends the log to every ticket whose
id matches either the ticketId argument or the log's own ticketId. -/
def addTicketLog (s : TicketStoreState) (ticketId : String) (log : StructuredLog) :
    TicketStoreState :=
  { s with
    tickets := s.tickets.map fun ticket =>
      if ticket.id == ticketId || ticket.id == log.ticketId
      then { ticket with logs := ticket.logs ++ [log] }
      else ticket }

/-- setAnalysisResult (src/unnamed/part_003 lines 218-233): clears any armed
timeout, stores the result and clears the analyzing flag. -/
def setAnalysisResult (s : TicketStoreState) (ticketId : String) (result : String) :
    TicketStoreState :=
  { s with
    pendingTimeouts := timeoutRemove ticketId s.pendingTimeouts
  , tickets := s.tickets.map fun ticket =>
      if ticket.id == ticketId
      then { ticket with analysisResult := some result, isAnalyzing := false }
      else ticket }

/-- The message sent by startAnalysis (src/unnamed/part_003 lines 287-294). -/
def mkStartMessage (ticketId : String) (t : Ticket) : StartAnalysisMessage :=
  { type := "start-code-analysis"
  , ticketId := ticketId
  , codeContext := t.codeContext.getD ""
  , question := t.description
  , projectId := t.projectId
  , mode := t.mode.getD "ask" }

/-- startAnalysis (src/unnamed/part_003 lines 235-298).  Returns the updated
store state together with the list of WebSocket messages passed to
sendMessage.  If the ticket does not exist the function returns early.
Otherwise it clears any existing timeout, marks the ticket analyzing with
empty logs and no result, arms a fresh 5-minute fallback timeout and sends
exactly one start-code-analysis message. -/
def startAnalysis (s : TicketStoreState) (ticketId : String) :
    TicketStoreState × List StartAnalysisMessage :=
  match findTicket s ticketId with
  | none => (s, [])
  | some ticket =>
    let pending1 := timeoutRemove ticketId s.pendingTimeouts
    let newTickets := s.tickets.map fun t =>
      if t.id == ticketId
      then { t with isAnalyzing := true, logs := [], analysisResult := none }
      else t
    ( { s with tickets := newTickets, pendingTimeouts := timeoutSet ticketId pending1 }
    , [mkStartMessage ticketId ticket] )

/-- The system log appended by the 5-minute fallback timeout callback
(src/unnamed/part_003 lines 266-272). -/
def timeoutLog (ticketId : String) (now : Nat) : StructuredLog :=
  { id := "timeout-" ++ toString now
  , ticketId := ticketId
  , messageType := "system"
  , content := "⏰ Phân tích tự động dừng sau 5 phút (timeout)"
  , timestamp := now }

/-- The firing of the fallback timeout armed by startAnalysis
(src/unnamed/part_003 lines 256-281), as executed by the JS runtime: the
callback can only run while its handle is still armed (clearTimeout removes
the handle and prevents the call); its body clears the analyzing flag,
appends the timeout log and deletes the map entry. -/
def timeoutFire (s : TicketStoreState) (ticketId : String) (now : Nat) : TicketStoreState :=
  if ticketId ∈ s.pendingTimeouts then
    { s with
      tickets := s.tickets.map fun t =>
        if t.id == ticketId
        then { t with isAnalyzing := false, logs := t.logs ++ [timeoutLog ticketId now] }
        else t
    , pendingTimeouts := timeoutRemove ticketId s.pendingTimeouts }
  else s

/-- stopAnalysisTimeout (src/unnamed/part_003 lines 383-390). -/
def stopAnalysisTimeout (s : TicketStoreState) (ticketId : String) : TicketStoreState :=
  { s with pendingTimeouts := timeoutRemove ticketId s.pendingTimeouts }

/-- The system log appended by stopAnalysis (src/unnamed/part_003 lines
407-413). -/
def stopLog (ticketId : String) (now : Nat) : StructuredLog :=
  { id := "stop-" ++ toString now
  , ticketId := ticketId
  , messageType := "system"
  , content := "⛔ Đã dừng phân tích theo yêu cầu"
  , timestamp := now }

/-- stopAnalysis (src/unnamed/part_003 lines 392-421): always clears the
timeout first; then awaits the stop-analysis REST call.  apiOk abstracts the
outcome of that call: on success the ticket is marked not analyzing and the
stop log is appended (logs and partial result are kept); on failure the error
is only logged and no further state changes. -/
def stopAnalysis (s : TicketStoreState) (ticketId : String) (apiOk : Bool) (now : Nat) :
    TicketStoreState :=
  let s1 := stopAnalysisTimeout s ticketId
  if apiOk then
    { s1 with
      tickets := s1.tickets.map fun t =>
        if t.id == ticketId
        then { t with isAnalyzing := false, logs := t.logs ++ [stopLog ticketId now] }
        else t }
  else s1

/-- Paginated response shape of GET /tickets/:id/logs
(PaginatedLogsResponse in src/unnamed/part_016 lines 80-84). -/
structure PaginatedLogsResponse where
  logs : List RawStructuredLog
  total : Nat
  has_more : Bool
  deriving DecidableEq

/-- Modelled from the spec: the Rust backend that serves
GET /tickets/:id/logs?limit&offset is not under src (only its migrations
are).  Per the spec's external-interface section the endpoint returns the
ticket's strictly ordered log list windowed by offset/limit together with
the total count and a has_more flag supporting incremental pagination.
serverLogs is the ticket's full persisted log list in emission order. -/
def serverGetLogs (serverLogs : List RawStructuredLog) (limit offset : Nat) :
    PaginatedLogsResponse :=
  { logs := (serverLogs.drop offset).take limit
  , total := serverLogs.length
  , has_more := decide (offset + limit < serverLogs.length) }

/-- loadTicketLogs (src/unnamed/part_003 lines 300-370): fetches a page via
ticketApi.getLogs, converts the rows to camelCase, replaces the ticket's
loaded logs when offset is 0 and appends otherwise, and records the
pagination state.  The backend response is produced by serverGetLogs from
the ticket's full server-side log list. -/
def loadTicketLogs (s : TicketStoreState) (serverLogs : List RawStructuredLog)
    (ticketId : String) (limit offset : Nat) : TicketStoreState :=
  let response := serverGetLogs serverLogs limit offset
  let convertedLogs := response.logs.map convertLog
  let existingLogs := ((findTicket s ticketId).map Ticket.logs).getD []
  let newLogs := if offset == 0 then convertedLogs else existingLogs ++ convertedLogs
  let pag : TicketPaginationState :=
    { loadedCount := newLogs.length
    , hasMore := response.has_more
    , total := response.total }
  { s with
    tickets := s.tickets.map fun ticket =>
      if ticket.id == ticketId then { ticket with logs := newLogs } else ticket
  , logPagination := paginationSet ticketId pag s.logPagination }

/-- loadMoreTicketLogs (src/unnamed/part_003 lines 372-381): no-op without a
pagination entry or when hasMore is false; otherwise requests the next page
of 100 starting at the number of logs already loaded. -/
def loadMoreTicketLogs (s : TicketStoreState) (serverLogs : List RawStructuredLog)
    (ticketId : String) : TicketStoreState :=
  match paginationGet ticketId s.logPagination with
  | none => s
  | some pagination =>
    if pagination.hasMore then loadTicketLogs s serverLogs ticketId 100 pagination.loadedCount
    else s

/-- isValidLogMessageType (src/unnamed/part_016 lines 105-108). -/
def isValidLogMessageType (type : String) : Bool :=
  ["tool_use", "assistant", "error", "system", "result"].contains type

/-- The server-to-client WebSocket messages handled by the subscribe handler
of src/app/projects/[projectId]/page.tsx (types in src/unnamed/part_016). -/
inductive ServerMessage where
  | structuredLog (log : RawStructuredLog)
  | codeAnalysisComplete (ticket_id : String) (content : String) (timestamp : Nat)
  | codeAnalysisError (ticket_id : String) (error : String) (timestamp : Nat)
  | other

/-- The WebSocket subscribe handler of ProjectDetailPage
(src/app/projects/[projectId]/page.tsx lines 134-174): converts a delivered
structured log to camelCase, rewrites an invalid message type to system,
appends the log, and clears the analyzing flag when a result log arrives;
code-analysis-complete delegates to setAnalysisResult and
code-analysis-error clears the analyzing flag. -/
def handleMessage (s : TicketStoreState) (msg : ServerMessage) : TicketStoreState :=
  match msg with
  | ServerMessage.structuredLog rawLog =>
    let transformedLog := convertLog rawLog
    let transformedLog :=
      if isValidLogMessageType transformedLog.messageType then transformedLog
      else { transformedLog with messageType := "system" }
    let s1 := addTicketLog s transformedLog.ticketId transformedLog
    if transformedLog.messageType == "result"
    then setTicketAnalyzing s1 transformedLog.ticketId false
    else s1
  | ServerMessage.codeAnalysisComplete ticket_id content _ =>
    setAnalysisResult s ticket_id content
  | ServerMessage.codeAnalysisError ticket_id _ _ =>
    setTicketAnalyzing s ticket_id false
  | ServerMessage.other => s

/-- JSON values, used to model the result of the JS JSON.parse applied by
parseLogContent (src/components/LogViewer.tsx lines 10-29).  A failed parse
is Option.none wherever an Option JsValue appears. -/
inductive JsValue where
  | jnull
  | jbool (b : Bool)
  | jnum (n : Int)
  | jstr (s : String)
  | jarr (elems : List JsValue)
  | jobj (fields : List (String × JsValue))

/-- JS property access v.field on a parsed JSON value: defined on objects,
undefined (none) elsewhere. -/
def jget (v : JsValue) (field : String) : Option JsValue :=
  match v with
  | JsValue.jobj fields => (fields.find? fun kv => kv.1 == field).map Prod.snd
  | _ => none

/-- Whitespace as stripped by JS String.prototype.trim (restricted to the
ASCII whitespace occurring in agent output). -/
def isJsWhitespace (c : Char) : Bool :=
  c == ' ' || c == '\t' || c == '\n' || c == '\r'

/-- JS String.prototype.trim, modelled on the character list. -/
def jsTrim (s : String) : String :=
  String.mk (((s.data.dropWhile isJsWhitespace).reverse.dropWhile isJsWhitespace).reverse)

/-- JS truthiness of a JSON value. -/
def jsTruthy : JsValue → Bool
  | JsValue.jnull => false
  | JsValue.jbool b => b
  | JsValue.jnum n => n != 0
  | JsValue.jstr s => s != ""
  | JsValue.jarr _ => true
  | JsValue.jobj _ => true

mutual

/-- The string a JSON value contributes as an element of Array.prototype.join
(null and undefined render empty, arrays join recursively with commas,
objects render as their default tag). -/
def jsRender : JsValue → String
  | JsValue.jnull => ""
  | JsValue.jbool b => cond b "true" "false"
  | JsValue.jnum n => toString n
  | JsValue.jstr s => s
  | JsValue.jarr elems => jsRenderList elems
  | JsValue.jobj _ => "[object Object]"

/-- Comma-joined rendering of a JSON array's elements. -/
def jsRenderList : List JsValue → String
  | [] => ""
  | [x] => jsRender x
  | x :: y :: rest => jsRender x ++ "," ++ jsRenderList (y :: rest)

end

/-- Rendering of a possibly-undefined value in a join context. -/
def jsToStringForJoin : Option JsValue → String
  | none => ""
  | some v => jsRender v

/-- The text-fragment concatenation of mergeAssistantLogs
(src/components/LogViewer.tsx lines 50-53): keep the items whose type
property is the string text, take their text properties and join with blank
lines. -/
def concatTextFragments (items : List JsValue) : String :=
  String.intercalate "\n\n"
    ((items.filter fun item =>
        match jget item "type" with
        | some (JsValue.jstr s) => s == "text"
        | _ => false).map
      fun item => jsToStringForJoin (jget item "text"))

/-- Branches 4 and 5 of the mergeAssistantLogs loop body
(src/components/LogViewer.tsx lines 64-70): a parsed value that is itself a
string is pushed directly; otherwise the raw content is pushed exactly when
the parsed value is falsy. -/
def logContributionStr (p : JsValue) (raw : String) : Option String :=
  match p with
  | JsValue.jstr s => some s
  | _ => if jsTruthy p then none else some raw

/-- Branch 3 of the mergeAssistantLogs loop body
(src/components/LogViewer.tsx lines 61-63): a truthy message property is
pushed, rendering as the final join does. -/
def logContributionMsg (p : JsValue) (raw : String) : Option String :=
  match jget p "message" with
  | some m => if jsTruthy m then some (jsToStringForJoin (some m)) else logContributionStr p raw
  | none => logContributionStr p raw

/-- The text one log pushes onto markdownParts in the mergeAssistantLogs loop
(src/components/LogViewer.tsx lines 45-71), given the parse result of its
content and the raw content: (1) when the content property is an array, the
concatenation of its text fragments, pushed only when not blank; (2) else a
truthy string result property; (3) else a truthy message property; (4) else
a parsed value that is itself a string; (5) else the raw content when the
parsed value is absent or falsy. -/
def logContribution : Option JsValue → String → Option String
  | none, raw => some raw
  | some p, raw =>
    match jget p "content" with
    | some (JsValue.jarr items) =>
      let textParts := concatTextFragments items
      if jsTrim textParts = "" then none else some textParts
    | _ =>
      match jget p "result" with
      | some (JsValue.jstr r) =>
        if r = "" then logContributionMsg p raw else some r
      | _ => logContributionMsg p raw

/-- The contentType produced by parseLogContent
(src/components/LogViewer.tsx line 19): the type property of a successfully
parsed content when that property is a truthy string, null otherwise. -/
def contentTypeOf (parsed : Option JsValue) : Option String :=
  match parsed with
  | some p =>
    match jget p "type" with
    | some (JsValue.jstr s) => if s = "" then none else some s
    | _ => none
  | none => none

/-- Stable insertion into an ascending-by-timestamp list: an element stays
before later elements with an equal timestamp. -/
def insertLogByTimestamp (x : StructuredLog) : List StructuredLog → List StructuredLog
  | [] => [x]
  | y :: ys =>
    if y.timestamp < x.timestamp then y :: insertLogByTimestamp x ys else x :: y :: ys

/-- The stable ascending sort by timestamp performed by the JS
`sort((a, b) => aTime - bTime)` in mergeAssistantLogs. -/
def sortLogsByTimestamp (logs : List StructuredLog) : List StructuredLog :=
  logs.foldr insertLogByTimestamp []

/-- mergeAssistantLogs (src/components/LogViewer.tsx lines 32-74), with the
JS JSON.parse of parseLogContent abstracted as the parse argument: keep the
assistant/result logs (by message type or parsed content type), sort them by
timestamp (JS sort is stable), collect each log's contribution and join with
blank lines. -/
def mergeAssistantLogs (parse : String → Option JsValue) (logs : List StructuredLog) :
    String :=
  let assistantLogs :=
    sortLogsByTimestamp (logs.filter fun log =>
      log.messageType == "assistant" || log.messageType == "result" ||
      contentTypeOf (parse log.content) == some "assistant" ||
      contentTypeOf (parse log.content) == some "result")
  String.intercalate "\n\n"
    (assistantLogs.filterMap fun log => logContribution (parse log.content) log.content)

/-- The extraction rule exactly as claim C3 states it: (1) the text fragments
of a structured content list, concatenated; (2) a flat result string field;
(3) a free-form message field; (4) the raw content as last resort. -/
def claimC3Extract (parsed : Option JsValue) (raw : String) : String :=
  match parsed with
  | none => raw
  | some p =>
    match jget p "content" with
    | some (JsValue.jarr items) => concatTextFragments items
    | _ =>
      match jget p "result" with
      | some (JsValue.jstr r) => r
      | _ =>
        match jget p "message" with
        | some m => jsToStringForJoin (some m)
        | none => raw

/-- The fragments branch of the code's extraction, as an independent query:
the concatenated text fragments when the content property is an array. -/
def contentFragments (p : JsValue) : Option String :=
  match jget p "content" with
  | some (JsValue.jarr items) => some (concatTextFragments items)
  | _ => none

/-- The flat-result branch as an independent query: a result property that is
a non-empty string. -/
def flatResultStr (p : JsValue) : Option String :=
  match jget p "result" with
  | some (JsValue.jstr r) => if r = "" then none else some r
  | _ => none

/-- The message branch as an independent query: a truthy message property,
rendered as the final join does. -/
def messageText (p : JsValue) : Option String :=
  match jget p "message" with
  | some m => if jsTruthy m then some (jsToStringForJoin (some m)) else none
  | none => none

/-- Priorities 4 and 5 of the amended claim C3: a parsed value that is
itself a string is used directly, and otherwise the raw content is used
exactly when the parsed value is falsy. -/
def amendedTail (p : JsValue) (raw : String) : Option String :=
  match p with
  | JsValue.jstr s => some s
  | _ => if jsTruthy p then none else some raw

/-- Priority 3 of the amended claim C3: a truthy message property. -/
def amendedMsgTail (p : JsValue) (raw : String) : Option String :=
  match messageText p with
  | some mtext => some mtext
  | none => amendedTail p raw

/-- Priority 2 of the amended claim C3: a non-empty string result property. -/
def amendedResultTail (p : JsValue) (raw : String) : Option String :=
  match flatResultStr p with
  | some r => some r
  | none => amendedMsgTail p raw

/-- The amended statement of claim C3 as a function: the priority order with
its guards made explicit.  (1) a content list contributes its concatenated
text fragments when non-blank and suppresses the event's text otherwise;
(2) else a non-empty string result property; (3) else a truthy message
property; (4) else a parsed value that is itself a string; (5) else the raw
content, used exactly when parsing failed or produced a falsy value, while a
truthy parsed value matching none of the above contributes no text. -/
def amendedC3Extract : Option JsValue → String → Option String
  | none, raw => some raw
  | some p, raw =>
    match contentFragments p with
    | some t => if jsTrim t = "" then none else some t
    | none => amendedResultTail p raw

/-- PlanApproval row of the plan_approvals table
(src/rust-backend/migrations/003_add_auth_and_plans.sql lines 31-41). -/
structure PlanApproval where
  id : String
  ticket_id : String
  user_id : String
  approved_at : Nat
  status : String
  deriving DecidableEq

/-- The CHECK constraint on plan_approvals.status. -/
def validApprovalStatus (status : String) : Bool :=
  status == "approved" || status == "rejected"

/-- The (ticket, user) key of the UNIQUE(ticket_id, user_id) constraint. -/
def approvalKeyMatch (ticket_id user_id : String) (a : PlanApproval) : Bool :=
  a.ticket_id == ticket_id && a.user_id == user_id

/-- The plan_approvals table invariants established by its schema: the
(ticket_id, user_id) pair is unique across rows and every status passes the
CHECK constraint. -/
def approvalsWellFormed (db : List PlanApproval) : Prop :=
  db.Pairwise (fun a b => ¬(a.ticket_id = b.ticket_id ∧ a.user_id = b.user_id)) ∧
  ∀ a ∈ db, validApprovalStatus a.status = true

/-- Modelled from the spec: the Plan Approval Engine's approve operation is
not under src (only the plan_approvals schema is, in migration 003).  Per the
spec, approve(ticketId, userId, status) upserts a PlanApproval keyed by
(ticket, user): a user's later decision overwrites their earlier one, last
write wins.  Modelled as removing any row with the key and inserting the new
row. -/
def approve (db : List PlanApproval) (newId ticket_id user_id status : String)
    (now : Nat) : List PlanApproval :=
  (db.filter fun a => !(approvalKeyMatch ticket_id user_id a)) ++
    [{ id := newId, ticket_id := ticket_id, user_id := user_id
     , approved_at := now, status := status }]

/-- Lookup of a user's decision on a ticket. -/
def lookupApproval (db : List PlanApproval) (ticket_id user_id : String) :
    Option PlanApproval :=
  db.find? (approvalKeyMatch ticket_id user_id)

/- ------------------------------------------------------------------ -/
/- Concrete instances used by witnesses and counterexamples.           -/
/- ------------------------------------------------------------------ -/

/-- A ticket with a running analysis, one gathered log and a partial result. -/
def c1Ticket : Ticket :=
  { id := "t1", projectId := "p1", title := "T", description := "What does the flow do"
  , status := "in-progress", codeContext := some "src/"
  , analysisResult := some "partial", isAnalyzing := true
  , logs := [{ id := "l0", ticketId := "t1", messageType := "assistant"
             , content := "hi", timestamp := 1 }]
  , mode := some "ask" }

def c1State : TicketStoreState :=
  { tickets := [c1Ticket], pendingTimeouts := ["t1"] }

def c1Raw : RawStructuredLog :=
  { id := "l9", ticket_id := "t1", message_type := "result"
  , content := "Flow X calls Y", timestamp := 9 }

/-- A ticket with no running analysis and no logs. -/
def c2Ticket : Ticket :=
  { id := "t1", projectId := "p1", title := "T", description := "d", status := "todo" }

def c2State : TicketStoreState := { tickets := [c2Ticket] }

def c3Log : StructuredLog :=
  { id := "l1", ticketId := "t1", messageType := "result", content := "\x7b\x7d"
  , timestamp := 0 }

/-- The JSON parse on the counterexample content: the empty-object literal
parses to the empty object. -/
def c3Parse : String → Option JsValue :=
  fun s => if s = "\x7b\x7d" then some (JsValue.jobj []) else none

def c4Ticket : Ticket :=
  { id := "t1", projectId := "p1", title := "T", description := "d"
  , status := "in-progress", analysisResult := some "partial", isAnalyzing := true
  , logs := [{ id := "l0", ticketId := "t1", messageType := "tool_use"
             , content := "x", timestamp := 1 }] }

def c4Other : Ticket :=
  { id := "t2", projectId := "p1", title := "U", description := "e", status := "todo" }

def c4State : TicketStoreState :=
  { tickets := [c4Ticket, c4Other], pendingTimeouts := ["t1"] }

def c5Ticket : Ticket :=
  { id := "t1", projectId := "p1", title := "T", description := "d", status := "todo" }

def c5State : TicketStoreState := { tickets := [c5Ticket] }

def c5Raw : RawStructuredLog :=
  { id := "l3", ticket_id := "t1", message_type := "bogus", content := "???"
  , timestamp := 3 }

def c6Ticket : Ticket :=
  { id := "t1", projectId := "p1", title := "T", description := "d", status := "todo"
  , logs := [{ id := "l0", ticketId := "t1", messageType := "system"
             , content := "old", timestamp := 0 }] }

def c6Other : Ticket :=
  { id := "t2", projectId := "p1", title := "U", description := "e", status := "todo" }

def c6State : TicketStoreState := { tickets := [c6Ticket, c6Other] }

def c6Log : StructuredLog :=
  { id := "l1", ticketId := "t1", messageType := "assistant", content := "n"
  , timestamp := 2 }

def c7Raw (i : Nat) : RawStructuredLog :=
  { id := "r" ++ toString i, ticket_id := "t1", message_type := "system"
  , content := "c" ++ toString i, timestamp := i }

def c7L : List RawStructuredLog := [c7Raw 0, c7Raw 1, c7Raw 2]

def c7Ticket : Ticket :=
  { id := "t1", projectId := "p1", title := "T", description := "d", status := "todo" }

def c7State : TicketStoreState := { tickets := [c7Ticket] }

/-- The store state after an initial page of one log has been loaded. -/
def c7TicketMore : Ticket :=
  { c7Ticket with logs := (c7L.map convertLog).take 1 }

def c7StateMore : TicketStoreState :=
  { tickets := [c7TicketMore]
  , logPagination := [("t1", { loadedCount := 1, hasMore := true, total := c7L.length })] }

def c8Db : List PlanApproval :=
  [{ id := "a0", ticket_id := "t9", user_id := "u2", approved_at := 1, status := "approved" }]

def c9Ticket : Ticket :=
  { id := "t1", projectId := "p1", title := "T", description := "why", status := "todo"
  , codeContext := some "ctx", analysisResult := some "old"
  , logs := [{ id := "l0", ticketId := "t1", messageType := "system"
             , content := "old", timestamp := 0 }]
  , mode := some "plan" }

def c9Other : Ticket :=
  { id := "t2", projectId := "p1", title := "U", description := "e", status := "todo" }

def c9State : TicketStoreState := { tickets := [c9Ticket, c9Other] }

def c10Ticket : Ticket :=
  { id := "t1", projectId := "p1", title := "T", description := "d"
  , status := "in-progress", isAnalyzing := true }

def c10State : TicketStoreState :=
  { tickets := [c10Ticket], pendingTimeouts := ["t1"] }

/- ------------------------------------------------------------------ -/
/- Helper lemmas shared by the claim theorems.                         -/
/- ------------------------------------------------------------------ -/

/-- find? commutes with a map that preserves the predicate's value. -/
theorem find?_map_comm {f : Ticket → Ticket} {p : Ticket → Bool}
    (hf : ∀ t, p (f t) = p t) (l : List Ticket) :
    (l.map f).find? p = (l.find? p).map f := by
  induction l with
  | nil => rfl
  | cons a l ih =>
    by_cases h : p a = true
    · rw [List.map_cons, List.find?_cons_of_pos _ (by rw [hf]; exact h),
        List.find?_cons_of_pos _ h]
      rfl
    · rw [List.map_cons, List.find?_cons_of_neg _ (by rw [hf]; simpa using h),
        List.find?_cons_of_neg _ (by simpa using h), ih]

/-- Finding a ticket after a conditional in-place update of the list: the
found ticket is the update of the previously found one, provided the update
preserves ids and its condition holds on the found ticket. -/
theorem find?_id_map_update (l : List Ticket) (ticketId : String)
    (c : Ticket → Bool) (g : Ticket → Ticket)
    (hg : ∀ u, (g u).id = u.id) (t : Ticket)
    (h : l.find? (fun u => u.id == ticketId) = some t) (hct : c t = true) :
    (l.map fun u => if c u then g u else u).find? (fun u => u.id == ticketId)
      = some (g t) := by
  have hf : ∀ u, ((if c u then g u else u).id == ticketId) = (u.id == ticketId) := by
    intro u
    by_cases hcu : c u = true <;> simp [hcu, hg]
  rw [find?_map_comm hf, h]
  simp [hct]

/-- A conditional in-place update leaves positions whose condition fails
untouched. -/
theorem get_map_update_of_neg (l : List Ticket) (c : Ticket → Bool) (g : Ticket → Ticket)
    (i : Nat) (h : i < l.length)
    (h' : i < (l.map fun u => if c u then g u else u).length)
    (hcu : c (l.get ⟨i, h⟩) = false) :
    (l.map fun u => if c u then g u else u).get ⟨i, h'⟩ = l.get ⟨i, h⟩ := by
  simp only [List.get_eq_getElem] at hcu ⊢
  simp [List.getElem_map, hcu]

/-- A conditional in-place update rewrites positions whose condition holds. -/
theorem get_map_update_of_pos (l : List Ticket) (c : Ticket → Bool) (g : Ticket → Ticket)
    (i : Nat) (h : i < l.length)
    (h' : i < (l.map fun u => if c u then g u else u).length)
    (hcu : c (l.get ⟨i, h⟩) = true) :
    (l.map fun u => if c u then g u else u).get ⟨i, h'⟩ = g (l.get ⟨i, h⟩) := by
  simp only [List.get_eq_getElem] at hcu ⊢
  simp [List.getElem_map, hcu]

/-- Map.delete really removes the key. -/
theorem not_mem_timeoutRemove (ticketId : String) (l : List String) :
    ticketId ∉ timeoutRemove ticketId l := by
  simp [timeoutRemove, List.mem_filter]

/-- setAnalysisResult stores the result and clears the flag on the ticket. -/
theorem findTicket_setAnalysisResult (s : TicketStoreState) (ticketId result : String)
    (t : Ticket) (h : findTicket s ticketId = some t) :
    findTicket (setAnalysisResult s ticketId result) ticketId
      = some { t with analysisResult := some result, isAnalyzing := false } := by
  have h' : s.tickets.find? (fun u => u.id == ticketId) = some t := h
  have hct : (fun u : Ticket => u.id == ticketId) t = true :=
    @List.find?_some Ticket (fun u => u.id == ticketId) t s.tickets h'
  exact find?_id_map_update s.tickets ticketId (fun u => u.id == ticketId)
    (fun u => { u with analysisResult := some result, isAnalyzing := false })
    (fun u => rfl) t h' hct

/-- setTicketAnalyzing writes the flag on the ticket. -/
theorem findTicket_setTicketAnalyzing (s : TicketStoreState) (ticketId : String)
    (b : Bool) (t : Ticket) (h : findTicket s ticketId = some t) :
    findTicket (setTicketAnalyzing s ticketId b) ticketId
      = some { t with isAnalyzing := b } := by
  have h' : s.tickets.find? (fun u => u.id == ticketId) = some t := h
  have hct : (fun u : Ticket => u.id == ticketId) t = true :=
    @List.find?_some Ticket (fun u => u.id == ticketId) t s.tickets h'
  exact find?_id_map_update s.tickets ticketId (fun u => u.id == ticketId)
    (fun u => { u with isAnalyzing := b }) (fun u => rfl) t h' hct

/-- addTicketLog appends the log to the addressed ticket. -/
theorem findTicket_addTicketLog (s : TicketStoreState) (ticketId : String)
    (log : StructuredLog) (t : Ticket) (h : findTicket s ticketId = some t) :
    findTicket (addTicketLog s ticketId log) ticketId
      = some { t with logs := t.logs ++ [log] } := by
  have h' : s.tickets.find? (fun u => u.id == ticketId) = some t := h
  have hct : (fun u : Ticket => u.id == ticketId) t = true :=
    @List.find?_some Ticket (fun u => u.id == ticketId) t s.tickets h'
  have hct2 : (fun u : Ticket => u.id == ticketId || u.id == log.ticketId) t = true := by
    show (t.id == ticketId || t.id == log.ticketId) = true
    rw [Bool.or_eq_true]
    exact Or.inl hct
  exact find?_id_map_update s.tickets ticketId
    (fun u => u.id == ticketId || u.id == log.ticketId)
    (fun u => { u with logs := u.logs ++ [log] }) (fun u => rfl) t h' hct2

/-- stopAnalysis with a successful REST call clears the flag and appends the
stop log on the addressed ticket. -/
theorem findTicket_stopAnalysis_ok (s : TicketStoreState) (ticketId : String)
    (now : Nat) (t : Ticket) (h : findTicket s ticketId = some t) :
    findTicket (stopAnalysis s ticketId true now) ticketId
      = some { t with isAnalyzing := false, logs := t.logs ++ [stopLog ticketId now] } := by
  have h' : s.tickets.find? (fun u => u.id == ticketId) = some t := h
  have hct : (fun u : Ticket => u.id == ticketId) t = true :=
    @List.find?_some Ticket (fun u => u.id == ticketId) t s.tickets h'
  exact find?_id_map_update s.tickets ticketId (fun u => u.id == ticketId)
    (fun u => { u with isAnalyzing := false, logs := u.logs ++ [stopLog ticketId now] })
    (fun u => rfl) t h' hct

/-- On a result-typed structured log, the subscribe handler appends the
converted log and then clears the analyzing flag. -/
theorem handleMessage_result_log (s : TicketStoreState) (raw : RawStructuredLog)
    (hty : raw.message_type = "result") :
    handleMessage s (ServerMessage.structuredLog raw)
      = setTicketAnalyzing (addTicketLog s raw.ticket_id (convertLog raw))
          raw.ticket_id false := by
  obtain ⟨rid, rtid, rmt, rc, rrl, rmd, rts⟩ := raw
  simp only at hty
  subst hty
  rfl

/-- On a structured log with an invalid message type, the subscribe handler
rewrites the type to system and appends the log (a system log is not a result
log, so the analyzing flag is untouched). -/
theorem handleMessage_invalid_log (s : TicketStoreState) (raw : RawStructuredLog)
    (hinvalid : isValidLogMessageType raw.message_type = false) :
    handleMessage s (ServerMessage.structuredLog raw)
      = addTicketLog s raw.ticket_id { convertLog raw with messageType := "system" } := by
  simp only [handleMessage]
  have hmt : (convertLog raw).messageType = raw.message_type := rfl
  rw [hmt, hinvalid]
  simp only [Bool.false_eq_true, if_false]
  rfl

/- ------------------------------------------------------------------ -/
/- Claim theorems.                                                     -/
/- ------------------------------------------------------------------ -/

/-- Claim C1: after a code-analysis-complete message for a ticket is handled
(setAnalysisResult), the ticket's analysisResult equals the delivered content
and its isAnalyzing flag is false; handling a result-typed structured log for
the ticket appends the log and likewise clears isAnalyzing. -/
theorem c1_completion_sets_result_and_clears_flag :
    ∀ (s : TicketStoreState) (ticketId content : String) (ts : Nat) (t : Ticket)
      (raw : RawStructuredLog),
    (findTicket s ticketId = some t →
      findTicket (handleMessage s (ServerMessage.codeAnalysisComplete ticketId content ts))
          ticketId
        = some { t with analysisResult := some content, isAnalyzing := false }) ∧
    (findTicket s ticketId = some t → raw.ticket_id = ticketId →
      raw.message_type = "result" →
      findTicket (handleMessage s (ServerMessage.structuredLog raw)) ticketId
        = some { t with logs := t.logs ++ [convertLog raw], isAnalyzing := false }) := by
  intro s ticketId content ts t raw
  refine ⟨fun h => findTicket_setAnalysisResult s ticketId content t h, ?_⟩
  intro h hid hty
  rw [handleMessage_result_log s raw hty, hid]
  have h1 := findTicket_addTicketLog s ticketId (convertLog raw) t h
  exact findTicket_setTicketAnalyzing (addTicketLog s ticketId (convertLog raw))
    ticketId false _ h1

/-- Witness for C1 at a concrete running ticket. -/
theorem c1_completion_sets_result_and_clears_flag_witness :
    findTicket (handleMessage c1State
        (ServerMessage.codeAnalysisComplete "t1" "Flow X calls Y" 3)) "t1"
      = some { c1Ticket with analysisResult := some "Flow X calls Y", isAnalyzing := false } ∧
    findTicket (handleMessage c1State (ServerMessage.structuredLog c1Raw)) "t1"
      = some { c1Ticket with
               logs := c1Ticket.logs ++ [convertLog c1Raw]
               isAnalyzing := false } :=
  ⟨(c1_completion_sets_result_and_clears_flag c1State "t1" "Flow X calls Y" 3 c1Ticket
      c1Raw).1 rfl
  , (c1_completion_sets_result_and_clears_flag c1State "t1" "Flow X calls Y" 3 c1Ticket
      c1Raw).2 rfl rfl rfl⟩

/-- Counterexample to claim C2 as frozen: invoking stopAnalysis on a ticket
with no running analysis (isAnalyzing false) is not a state no-op — it
appends a new (system) log row to the ticket. -/
theorem c2_counterexample :
    c2Ticket.isAnalyzing = false ∧
    (findTicket c2State "t1").map (fun t => t.logs.length) = some 0 ∧
    (findTicket (stopAnalysis c2State "t1" true 5) "t1").map (fun t => t.logs.length)
      = some 1 ∧
    stopAnalysis c2State "t1" true 5 ≠ c2State := by
  decide

/-- Claim C2 amended: stopAnalysis on a ticket with no running analysis
still clears any pending fallback timeout and, when the stop REST call
succeeds, appends exactly one system-typed stop log, leaving isAnalyzing
false and every other ticket field unchanged; when the REST call fails only
the pending timeout is cleared. -/
theorem c2_stop_idle_amended :
    ∀ (s : TicketStoreState) (ticketId : String) (t : Ticket) (now : Nat),
    findTicket s ticketId = some t → t.isAnalyzing = false →
    findTicket (stopAnalysis s ticketId true now) ticketId
        = some { t with logs := t.logs ++ [stopLog ticketId now] } ∧
    (stopLog ticketId now).messageType = "system" ∧
    ticketId ∉ (stopAnalysis s ticketId true now).pendingTimeouts ∧
    stopAnalysis s ticketId false now
        = { s with pendingTimeouts := timeoutRemove ticketId s.pendingTimeouts } := by
  intro s ticketId t now h hidle
  refine ⟨?_, rfl, ?_, rfl⟩
  · have h1 := findTicket_stopAnalysis_ok s ticketId now t h
    rw [h1]
    obtain ⟨tid', pj, ti, de, st, ca, ua, cc, ar, ia, lg, mo, pc, pca, ra⟩ := t
    have hia : ia = false := hidle
    subst hia
    rfl
  · show ticketId ∉ timeoutRemove ticketId s.pendingTimeouts
    exact not_mem_timeoutRemove ticketId s.pendingTimeouts

/-- Witness for the amended C2 at a concrete idle ticket. -/
theorem c2_stop_idle_amended_witness :
    findTicket (stopAnalysis c2State "t1" true 5) "t1"
        = some { c2Ticket with logs := c2Ticket.logs ++ [stopLog "t1" 5] } ∧
    (stopLog "t1" 5).messageType = "system" ∧
    "t1" ∉ (stopAnalysis c2State "t1" true 5).pendingTimeouts ∧
    stopAnalysis c2State "t1" false 5
        = { c2State with pendingTimeouts := timeoutRemove "t1" c2State.pendingTimeouts } :=
  c2_stop_idle_amended c2State "t1" c2Ticket 5 rfl rfl

/-- Claim C4: stopAnalysis on a ticket whose analysis is running (with the
stop REST call succeeding) leaves the ticket not analyzing, appends exactly
one system-typed stop log, preserves the previously gathered logs and the
partial analysisResult, and touches no other ticket. -/
theorem c4_stop_running_appends_stop_log :
    ∀ (s : TicketStoreState) (ticketId : String) (t : Ticket) (now : Nat),
    findTicket s ticketId = some t → t.isAnalyzing = true →
    findTicket (stopAnalysis s ticketId true now) ticketId
        = some { t with isAnalyzing := false, logs := t.logs ++ [stopLog ticketId now] } ∧
    (stopLog ticketId now).messageType = "system" ∧
    (findTicket (stopAnalysis s ticketId true now) ticketId).map Ticket.analysisResult
        = some t.analysisResult ∧
    (stopAnalysis s ticketId true now).tickets.length = s.tickets.length ∧
    ∀ (i : Nat) (hi : i < s.tickets.length)
      (hi' : i < (stopAnalysis s ticketId true now).tickets.length),
      (s.tickets.get ⟨i, hi⟩).id ≠ ticketId →
      (stopAnalysis s ticketId true now).tickets.get ⟨i, hi'⟩ = s.tickets.get ⟨i, hi⟩ := by
  intro s ticketId t now h hrun
  have h1 := findTicket_stopAnalysis_ok s ticketId now t h
  refine ⟨h1, rfl, ?_, List.length_map _ _, ?_⟩
  · rw [h1]
    rfl
  · intro i hi hi' hne
    exact get_map_update_of_neg s.tickets (fun u => u.id == ticketId)
      (fun u => { u with isAnalyzing := false, logs := u.logs ++ [stopLog ticketId now] })
      i hi hi' (by
        simp only [List.get_eq_getElem] at hne
        simp [hne])

/-- Witness for C4 at a concrete running ticket with a second ticket. -/
theorem c4_stop_running_appends_stop_log_witness :
    findTicket (stopAnalysis c4State "t1" true 7) "t1"
        = some { c4Ticket with
                 isAnalyzing := false
                 logs := c4Ticket.logs ++ [stopLog "t1" 7] } ∧
    (stopLog "t1" 7).messageType = "system" ∧
    (findTicket (stopAnalysis c4State "t1" true 7) "t1").map Ticket.analysisResult
        = some c4Ticket.analysisResult ∧
    (stopAnalysis c4State "t1" true 7).tickets.length = c4State.tickets.length ∧
    ∀ (i : Nat) (hi : i < c4State.tickets.length)
      (hi' : i < (stopAnalysis c4State "t1" true 7).tickets.length),
      (c4State.tickets.get ⟨i, hi⟩).id ≠ "t1" →
      (stopAnalysis c4State "t1" true 7).tickets.get ⟨i, hi'⟩ = c4State.tickets.get ⟨i, hi⟩ :=
  c4_stop_running_appends_stop_log c4State "t1" c4Ticket 7 rfl rfl

/-- Claim C5: isValidLogMessageType accepts exactly the five log message
types, and the live handler rewrites any other type to system and still
appends the log instead of dropping the event. -/
theorem c5_invalid_type_falls_back_to_system :
    (∀ ty : String, isValidLogMessageType ty = true ↔
      (ty = "tool_use" ∨ ty = "assistant" ∨ ty = "error" ∨ ty = "system" ∨ ty = "result")) ∧
    (∀ (s : TicketStoreState) (raw : RawStructuredLog) (t : Ticket),
      findTicket s raw.ticket_id = some t →
      isValidLogMessageType raw.message_type = false →
      findTicket (handleMessage s (ServerMessage.structuredLog raw)) raw.ticket_id
        = some { t with
            logs := t.logs ++ [{ convertLog raw with messageType := "system" }] }) := by
  constructor
  · intro ty
    simp [isValidLogMessageType]
  · intro s raw t h hinvalid
    rw [handleMessage_invalid_log s raw hinvalid]
    exact findTicket_addTicketLog s raw.ticket_id _ t h

/-- Witness for C5 at a concrete log with an unrecognized type. -/
theorem c5_invalid_type_falls_back_to_system_witness :
    (isValidLogMessageType "tool_use" = true ↔
      ("tool_use" = "tool_use" ∨ "tool_use" = "assistant" ∨ "tool_use" = "error" ∨
        "tool_use" = "system" ∨ "tool_use" = "result")) ∧
    findTicket (handleMessage c5State (ServerMessage.structuredLog c5Raw)) "t1"
      = some { c5Ticket with
          logs := c5Ticket.logs ++ [{ convertLog c5Raw with messageType := "system" }] } :=
  ⟨c5_invalid_type_falls_back_to_system.1 "tool_use"
  , c5_invalid_type_falls_back_to_system.2 c5State c5Raw c5Ticket rfl rfl⟩

/-- Claim C6: addTicketLog for a ticket (with the log addressed to that
ticket) appends the new log at the end of that ticket's log list, removes
and reorders nothing, and leaves every other ticket untouched. -/
theorem c6_addTicketLog_append_only :
    ∀ (s : TicketStoreState) (ticketId : String) (log : StructuredLog),
    log.ticketId = ticketId →
    (addTicketLog s ticketId log).tickets.length = s.tickets.length ∧
    ∀ (i : Nat) (hi : i < s.tickets.length)
      (hi' : i < (addTicketLog s ticketId log).tickets.length),
      (addTicketLog s ticketId log).tickets.get ⟨i, hi'⟩
        = (if (s.tickets.get ⟨i, hi⟩).id = ticketId
           then { s.tickets.get ⟨i, hi⟩ with
                  logs := (s.tickets.get ⟨i, hi⟩).logs ++ [log] }
           else s.tickets.get ⟨i, hi⟩) := by
  intro s ticketId log hl
  refine ⟨List.length_map _ _, ?_⟩
  intro i hi hi'
  by_cases hid : (s.tickets.get ⟨i, hi⟩).id = ticketId
  · rw [if_pos hid]
    exact get_map_update_of_pos s.tickets
      (fun u => u.id == ticketId || u.id == log.ticketId)
      (fun u => { u with logs := u.logs ++ [log] }) i hi hi' (by
        simp only [List.get_eq_getElem] at hid
        simp [hid])
  · rw [if_neg hid]
    exact get_map_update_of_neg s.tickets
      (fun u => u.id == ticketId || u.id == log.ticketId)
      (fun u => { u with logs := u.logs ++ [log] }) i hi hi' (by
        simp only [List.get_eq_getElem] at hid
        simp [hid, hl])

/-- Witness for C6 at a concrete two-ticket store. -/
theorem c6_addTicketLog_append_only_witness :
    (addTicketLog c6State "t1" c6Log).tickets.length = c6State.tickets.length ∧
    ∀ (i : Nat) (hi : i < c6State.tickets.length)
      (hi' : i < (addTicketLog c6State "t1" c6Log).tickets.length),
      (addTicketLog c6State "t1" c6Log).tickets.get ⟨i, hi'⟩
        = (if (c6State.tickets.get ⟨i, hi⟩).id = "t1"
           then { c6State.tickets.get ⟨i, hi⟩ with
                  logs := (c6State.tickets.get ⟨i, hi⟩).logs ++ [c6Log] }
           else c6State.tickets.get ⟨i, hi⟩) :=
  c6_addTicketLog_append_only c6State "t1" c6Log rfl

/-- Claim C9: startAnalysis on an existing ticket mutates exactly the
isAnalyzing (true), logs (emptied) and analysisResult (cleared) fields of
that ticket, leaves its other fields and every other ticket unchanged, and
sends exactly one start-code-analysis message; on a missing ticket it
changes nothing and sends nothing. -/
theorem c9_startAnalysis_frame :
    ∀ (s : TicketStoreState) (ticketId : String) (t : Ticket),
    (findTicket s ticketId = none → startAnalysis s ticketId = (s, [])) ∧
    (findTicket s ticketId = some t →
      findTicket (startAnalysis s ticketId).1 ticketId
          = some { t with isAnalyzing := true, logs := [], analysisResult := none } ∧
      (startAnalysis s ticketId).2 = [mkStartMessage ticketId t] ∧
      (mkStartMessage ticketId t).type = "start-code-analysis" ∧
      (startAnalysis s ticketId).1.tickets.length = s.tickets.length ∧
      (startAnalysis s ticketId).1.logPagination = s.logPagination ∧
      ∀ (i : Nat) (hi : i < s.tickets.length)
        (hi' : i < (startAnalysis s ticketId).1.tickets.length),
        (s.tickets.get ⟨i, hi⟩).id ≠ ticketId →
        (startAnalysis s ticketId).1.tickets.get ⟨i, hi'⟩ = s.tickets.get ⟨i, hi⟩) := by
  intro s ticketId t
  constructor
  · intro h
    unfold startAnalysis
    rw [h]
  · intro h
    have hstart : startAnalysis s ticketId
        = ( { s with
              tickets := s.tickets.map fun u =>
                if u.id == ticketId
                then { u with isAnalyzing := true, logs := [], analysisResult := none }
                else u
              pendingTimeouts :=
                timeoutSet ticketId (timeoutRemove ticketId s.pendingTimeouts) }
          , [mkStartMessage ticketId t] ) := by
      unfold startAnalysis
      rw [h]
    rw [hstart]
    have h' : s.tickets.find? (fun u => u.id == ticketId) = some t := h
    have hct : (fun u : Ticket => u.id == ticketId) t = true :=
      @List.find?_some Ticket (fun u => u.id == ticketId) t s.tickets h'
    refine ⟨?_, rfl, rfl, List.length_map _ _, rfl, ?_⟩
    · exact find?_id_map_update s.tickets ticketId (fun u => u.id == ticketId)
        (fun u => { u with isAnalyzing := true, logs := [], analysisResult := none })
        (fun u => rfl) t h' hct
    · intro i hi hi' hne
      exact get_map_update_of_neg s.tickets (fun u => u.id == ticketId)
        (fun u => { u with isAnalyzing := true, logs := [], analysisResult := none })
        i hi hi' (by
          simp only [List.get_eq_getElem] at hne
          simp [hne])

/-- Witness for C9 at a concrete two-ticket store (existing and missing id). -/
theorem c9_startAnalysis_frame_witness :
    startAnalysis { tickets := ([] : List Ticket) } "zz" = ({ tickets := [] }, []) ∧
    findTicket (startAnalysis c9State "t1").1 "t1"
        = some { c9Ticket with isAnalyzing := true, logs := [], analysisResult := none } ∧
    (startAnalysis c9State "t1").2 = [mkStartMessage "t1" c9Ticket] ∧
    (mkStartMessage "t1" c9Ticket).type = "start-code-analysis" :=
  have h2 := (c9_startAnalysis_frame c9State "t1" c9Ticket).2 rfl
  ⟨(c9_startAnalysis_frame { tickets := [] } "zz" c9Ticket).1 rfl
  , h2.1, h2.2.1, h2.2.2.1⟩

/-- Claim C10: startAnalysis arms a fallback timeout for its ticket; a firing
timeout clears isAnalyzing and appends one system timeout log; a completion
(setAnalysisResult) and a stop (setTicketAnalyzing(id,false) or
stopAnalysisTimeout) disarm the pending timeout, and a disarmed timeout can
never fire, so the timeout log is never appended after one of those has been
processed. -/
theorem c10_timeout_fallback_lifecycle :
    ∀ (s : TicketStoreState) (ticketId : String) (t : Ticket) (now : Nat)
      (result : String),
    (findTicket s ticketId = some t →
      ticketId ∈ (startAnalysis s ticketId).1.pendingTimeouts) ∧
    (ticketId ∈ s.pendingTimeouts → findTicket s ticketId = some t →
      findTicket (timeoutFire s ticketId now) ticketId
          = some { t with
                   isAnalyzing := false
                   logs := t.logs ++ [timeoutLog ticketId now] } ∧
      (timeoutLog ticketId now).messageType = "system" ∧
      ticketId ∉ (timeoutFire s ticketId now).pendingTimeouts) ∧
    ticketId ∉ (setAnalysisResult s ticketId result).pendingTimeouts ∧
    ticketId ∉ (setTicketAnalyzing s ticketId false).pendingTimeouts ∧
    ticketId ∉ (stopAnalysisTimeout s ticketId).pendingTimeouts ∧
    (ticketId ∉ s.pendingTimeouts → timeoutFire s ticketId now = s) := by
  intro s ticketId t now result
  refine ⟨?_, ?_, ?_, ?_, ?_, ?_⟩
  · intro h
    have hstart : (startAnalysis s ticketId).1.pendingTimeouts
        = timeoutSet ticketId (timeoutRemove ticketId s.pendingTimeouts) := by
      unfold startAnalysis
      rw [h]
    rw [hstart]
    exact List.mem_cons_self ticketId _
  · intro hmem h
    have hfire : timeoutFire s ticketId now
        = { s with
            tickets := s.tickets.map fun u =>
              if u.id == ticketId
              then { u with
                     isAnalyzing := false
                     logs := u.logs ++ [timeoutLog ticketId now] }
              else u
            pendingTimeouts := timeoutRemove ticketId s.pendingTimeouts } := by
      unfold timeoutFire
      rw [if_pos hmem]
    rw [hfire]
    have h' : s.tickets.find? (fun u => u.id == ticketId) = some t := h
    have hct : (fun u : Ticket => u.id == ticketId) t = true :=
      @List.find?_some Ticket (fun u => u.id == ticketId) t s.tickets h'
    refine ⟨?_, rfl, not_mem_timeoutRemove ticketId s.pendingTimeouts⟩
    exact find?_id_map_update s.tickets ticketId (fun u => u.id == ticketId)
      (fun u => { u with
                  isAnalyzing := false
                  logs := u.logs ++ [timeoutLog ticketId now] })
      (fun u => rfl) t h' hct
  · exact not_mem_timeoutRemove ticketId s.pendingTimeouts
  · show ticketId ∉ timeoutRemove ticketId s.pendingTimeouts
    exact not_mem_timeoutRemove ticketId s.pendingTimeouts
  · exact not_mem_timeoutRemove ticketId s.pendingTimeouts
  · intro hnm
    unfold timeoutFire
    rw [if_neg hnm]

/-- Witness for C10 at a concrete armed ticket. -/
theorem c10_timeout_fallback_lifecycle_witness :
    "t1" ∈ (startAnalysis c10State "t1").1.pendingTimeouts ∧
    findTicket (timeoutFire c10State "t1" 11) "t1"
        = some { c10Ticket with
                 isAnalyzing := false
                 logs := c10Ticket.logs ++ [timeoutLog "t1" 11] } ∧
    "t1" ∉ (timeoutFire c10State "t1" 11).pendingTimeouts ∧
    "t1" ∉ (setAnalysisResult c10State "t1" "done").pendingTimeouts ∧
    timeoutFire { tickets := [c10Ticket] } "t1" 11 = { tickets := [c10Ticket] } :=
  have hall := c10_timeout_fallback_lifecycle c10State "t1" c10Ticket 11 "done"
  have hfire := hall.2.1 (by decide) rfl
  ⟨hall.1 rfl, hfire.1, hfire.2.2, hall.2.2.1
  , (c10_timeout_fallback_lifecycle { tickets := [c10Ticket] } "t1" c10Ticket 11
      "done").2.2.2.2.2 (by decide)⟩

/-- The two half-pages of the backend concatenate to the double page. -/
theorem serverPage_concat (L : List RawStructuredLog) (n : Nat) :
    (serverGetLogs L n 0).logs ++ (serverGetLogs L n n).logs
      = (serverGetLogs L (2 * n) 0).logs := by
  show (L.drop 0).take n ++ (L.drop n).take n = (L.drop 0).take (2 * n)
  rw [List.drop_zero, two_mul, List.take_add]

/-- Map.get of a freshly Map.set key. -/
theorem paginationGet_set (ticketId : String) (p : TicketPaginationState)
    (l : List (String × TicketPaginationState)) :
    paginationGet ticketId (paginationSet ticketId p l) = some p := by
  show ((((ticketId, p) :: l.filter fun kv => kv.1 != ticketId).find?
      (fun kv => kv.1 == ticketId)).map Prod.snd) = some p
  rw [List.find?_cons_of_pos _ (by simp)]
  rfl

/-- loadTicketLogs with offset 0 replaces the loaded logs by the first page
and records the pagination state. -/
theorem loadTicketLogs_first_page (s : TicketStoreState) (L : List RawStructuredLog)
    (ticketId : String) (limit : Nat) (t : Ticket)
    (h : findTicket s ticketId = some t) :
    findTicket (loadTicketLogs s L ticketId limit 0) ticketId
        = some { t with logs := (L.take limit).map convertLog } ∧
    paginationGet ticketId (loadTicketLogs s L ticketId limit 0).logPagination
        = some { loadedCount := min limit L.length
               , hasMore := decide (0 + limit < L.length)
               , total := L.length } := by
  have h' : s.tickets.find? (fun u => u.id == ticketId) = some t := h
  have hct : (fun u : Ticket => u.id == ticketId) t = true :=
    @List.find?_some Ticket (fun u => u.id == ticketId) t s.tickets h'
  constructor
  · exact find?_id_map_update s.tickets ticketId (fun u => u.id == ticketId)
      (fun u => { u with logs := (L.take limit).map convertLog })
      (fun u => rfl) t h' hct
  · have hset : paginationGet ticketId (loadTicketLogs s L ticketId limit 0).logPagination
        = some { loadedCount := ((L.take limit).map convertLog).length
               , hasMore := decide (0 + limit < L.length)
               , total := L.length } :=
      paginationGet_set ticketId _ s.logPagination
    rw [hset]
    simp [List.length_map, List.length_take]

/-- loadMoreTicketLogs extends a loaded prefix of k logs to a prefix of
k + 100 logs and updates the pagination state accordingly. -/
theorem loadMoreTicketLogs_next_page (s : TicketStoreState) (L : List RawStructuredLog)
    (ticketId : String) (t : Ticket) (k : Nat)
    (h : findTicket s ticketId = some t)
    (hlogs : t.logs = (L.map convertLog).take k)
    (hpag : paginationGet ticketId s.logPagination
        = some { loadedCount := k, hasMore := true, total := L.length }) :
    findTicket (loadMoreTicketLogs s L ticketId) ticketId
        = some { t with logs := (L.map convertLog).take (k + 100) } ∧
    paginationGet ticketId (loadMoreTicketLogs s L ticketId).logPagination
        = some { loadedCount := min (k + 100) L.length
               , hasMore := decide (k + 100 < L.length)
               , total := L.length } := by
  have hstep : loadMoreTicketLogs s L ticketId = loadTicketLogs s L ticketId 100 k := by
    unfold loadMoreTicketLogs
    rw [hpag]
    rfl
  have h' : s.tickets.find? (fun u => u.id == ticketId) = some t := h
  have hct : (fun u : Ticket => u.id == ticketId) t = true :=
    @List.find?_some Ticket (fun u => u.id == ticketId) t s.tickets h'
  have hconv : ((L.drop k).take 100).map convertLog
      = ((L.map convertLog).drop k).take 100 := by
    rw [List.map_take, List.map_drop]
  have hnew : (if (k == 0 : Bool)
        then ((L.drop k).take 100).map convertLog
        else (((findTicket s ticketId).map Ticket.logs).getD [])
              ++ ((L.drop k).take 100).map convertLog)
      = (L.map convertLog).take (k + 100) := by
    by_cases hk : k = 0
    · subst hk
      simp [hconv]
    · rw [if_neg (by simpa using hk), h]
      show t.logs ++ ((L.drop k).take 100).map convertLog = _
      rw [hlogs, hconv, ← List.take_add]
  rw [hstep]
  constructor
  · have hA := find?_id_map_update s.tickets ticketId (fun u => u.id == ticketId)
      (fun u => { u with
                  logs := if (k == 0 : Bool)
                    then ((L.drop k).take 100).map convertLog
                    else (((findTicket s ticketId).map Ticket.logs).getD [])
                          ++ ((L.drop k).take 100).map convertLog })
      (fun u => rfl) t h' hct
    have hA' : findTicket (loadTicketLogs s L ticketId 100 k) ticketId
        = some { t with
                 logs := if (k == 0 : Bool)
                   then ((L.drop k).take 100).map convertLog
                   else (((findTicket s ticketId).map Ticket.logs).getD [])
                         ++ ((L.drop k).take 100).map convertLog } := hA
    rw [hA', hnew]
  · have hset : paginationGet ticketId (loadTicketLogs s L ticketId 100 k).logPagination
        = some { loadedCount :=
                   (if (k == 0 : Bool)
                    then ((L.drop k).take 100).map convertLog
                    else (((findTicket s ticketId).map Ticket.logs).getD [])
                          ++ ((L.drop k).take 100).map convertLog).length
               , hasMore := decide (k + 100 < L.length)
               , total := L.length } :=
      paginationGet_set ticketId _ s.logPagination
    rw [hset, hnew]
    simp [List.length_take, List.length_map]

/-- Claim C7: the backend pages compose — logs(0,N) ++ logs(N,N) equals
logs(0,2N) with no duplicates — and the frontend loaders realize gapless,
duplicate-free paging: loadTicketLogs with offset 0 replaces the ticket's
loaded logs by the first page, and loadMoreTicketLogs requests the next page
at offset loadedCount and appends it, turning a loaded prefix of k logs into
the prefix of k + 100 logs. -/
theorem c7_pagination_law :
    (∀ (L : List RawStructuredLog) (n : Nat),
      (serverGetLogs L n 0).logs ++ (serverGetLogs L n n).logs
        = (serverGetLogs L (2 * n) 0).logs) ∧
    (∀ (L : List RawStructuredLog) (n : Nat), L.Nodup →
      ((serverGetLogs L n 0).logs ++ (serverGetLogs L n n).logs).Nodup) ∧
    (∀ (s : TicketStoreState) (L : List RawStructuredLog) (ticketId : String)
       (limit : Nat) (t : Ticket),
      findTicket s ticketId = some t →
      findTicket (loadTicketLogs s L ticketId limit 0) ticketId
          = some { t with logs := (L.take limit).map convertLog } ∧
      paginationGet ticketId (loadTicketLogs s L ticketId limit 0).logPagination
          = some { loadedCount := min limit L.length
                 , hasMore := decide (0 + limit < L.length)
                 , total := L.length }) ∧
    (∀ (s : TicketStoreState) (L : List RawStructuredLog) (ticketId : String)
       (t : Ticket) (k : Nat),
      findTicket s ticketId = some t →
      t.logs = (L.map convertLog).take k →
      paginationGet ticketId s.logPagination
          = some { loadedCount := k, hasMore := true, total := L.length } →
      findTicket (loadMoreTicketLogs s L ticketId) ticketId
          = some { t with logs := (L.map convertLog).take (k + 100) } ∧
      paginationGet ticketId (loadMoreTicketLogs s L ticketId).logPagination
          = some { loadedCount := min (k + 100) L.length
                 , hasMore := decide (k + 100 < L.length)
                 , total := L.length }) := by
  refine ⟨serverPage_concat, ?_, ?_, ?_⟩
  · intro L n h
    rw [serverPage_concat]
    show ((L.drop 0).take (2 * n)).Nodup
    rw [List.drop_zero]
    exact List.Nodup.sublist (List.take_sublist _ _) h
  · intro s L ticketId limit t h
    exact loadTicketLogs_first_page s L ticketId limit t h
  · intro s L ticketId t k h hlogs hpag
    exact loadMoreTicketLogs_next_page s L ticketId t k h hlogs hpag

/-- Witness for C7 at a concrete three-log server list and one-ticket store. -/
theorem c7_pagination_law_witness :
    ((serverGetLogs c7L 2 0).logs ++ (serverGetLogs c7L 2 2).logs
        = (serverGetLogs c7L (2 * 2) 0).logs) ∧
    ((serverGetLogs c7L 2 0).logs ++ (serverGetLogs c7L 2 2).logs).Nodup ∧
    findTicket (loadTicketLogs c7State c7L "t1" 1 0) "t1"
        = some { c7Ticket with logs := (c7L.take 1).map convertLog } ∧
    findTicket (loadMoreTicketLogs c7StateMore c7L "t1") "t1"
        = some { c7TicketMore with logs := (c7L.map convertLog).take (1 + 100) } ∧
    paginationGet "t1" (loadMoreTicketLogs c7StateMore c7L "t1").logPagination
        = some { loadedCount := min (1 + 100) c7L.length
               , hasMore := decide (1 + 100 < c7L.length)
               , total := c7L.length } :=
  have h4 := c7_pagination_law.2.2.2 c7StateMore c7L "t1" c7TicketMore 1 rfl rfl rfl
  ⟨c7_pagination_law.1 c7L 2
  , c7_pagination_law.2.1 c7L 2 (by decide)
  , (c7_pagination_law.2.2.1 c7State c7L "t1" 1 c7Ticket rfl).1
  , h4.1, h4.2⟩


/-- The new row built by approve. -/
def approveRow (newId ticket_id user_id status : String) (now : Nat) : PlanApproval :=
  { id := newId, ticket_id := ticket_id, user_id := user_id
  , approved_at := now, status := status }

/-- Every row surviving the approve filter fails the key predicate. -/
theorem filter_key_false (db : List PlanApproval) (ticket_id user_id : String) :
    ∀ a ∈ db.filter (fun a => !(approvalKeyMatch ticket_id user_id a)),
      approvalKeyMatch ticket_id user_id a = false := by
  intro a ha
  have hmem := (List.mem_filter.mp ha).2
  revert hmem
  cases approvalKeyMatch ticket_id user_id a <;> simp

/-- The upserted row is the one found for its key, with no well-formedness
assumption needed: every row with the key is filtered out first. -/
theorem lookupApproval_approve (db : List PlanApproval)
    (newId ticket_id user_id status : String) (now : Nat) :
    lookupApproval (approve db newId ticket_id user_id status now) ticket_id user_id
      = some (approveRow newId ticket_id user_id status now) := by
  show ((db.filter fun a => !(approvalKeyMatch ticket_id user_id a)) ++
      [approveRow newId ticket_id user_id status now]).find?
      (approvalKeyMatch ticket_id user_id)
    = some (approveRow newId ticket_id user_id status now)
  rw [List.find?_append]
  have hrest : (db.filter fun a => !(approvalKeyMatch ticket_id user_id a)).find?
      (approvalKeyMatch ticket_id user_id) = none := by
    rw [List.find?_eq_none]
    intro a ha
    simp [filter_key_false db ticket_id user_id a ha]
  rw [hrest]
  rw [List.find?_cons_of_pos _ (by simp [approvalKeyMatch, approveRow])]
  rfl

/-- approve keeps exactly one row for its key. -/
theorem approve_key_count (db : List PlanApproval)
    (newId ticket_id user_id status : String) (now : Nat) :
    ((approve db newId ticket_id user_id status now).filter
      (approvalKeyMatch ticket_id user_id)).length = 1 := by
  show (((db.filter fun a => !(approvalKeyMatch ticket_id user_id a)) ++
      [approveRow newId ticket_id user_id status now]).filter
      (approvalKeyMatch ticket_id user_id)).length = 1
  rw [List.filter_append]
  have hrest : (db.filter fun a => !(approvalKeyMatch ticket_id user_id a)).filter
      (approvalKeyMatch ticket_id user_id) = [] := by
    rw [List.filter_eq_nil_iff]
    intro a ha
    simp [filter_key_false db ticket_id user_id a ha]
  rw [hrest]
  simp [approvalKeyMatch, approveRow]

/-- approve preserves the rows of every other (ticket, user) key. -/
theorem approve_preserves_other_keys (db : List PlanApproval)
    (newId ticket_id user_id status : String) (now : Nat) :
    ∀ a ∈ db, approvalKeyMatch ticket_id user_id a = false →
      a ∈ approve db newId ticket_id user_id status now := by
  intro a ha hfalse
  exact List.mem_append_left _ (List.mem_filter.mpr ⟨ha, by simp [hfalse]⟩)

/-- approve preserves the schema invariants of plan_approvals. -/
theorem approve_wellFormed (db : List PlanApproval)
    (newId ticket_id user_id status : String) (now : Nat)
    (hwf : approvalsWellFormed db) (hstatus : validApprovalStatus status = true) :
    approvalsWellFormed (approve db newId ticket_id user_id status now) := by
  unfold approvalsWellFormed approve
  constructor
  · rw [List.pairwise_append]
    refine ⟨List.Pairwise.sublist (List.filter_sublist db) hwf.1
    , List.pairwise_singleton _ _, ?_⟩
    intro a ha b hb
    have hkey := filter_key_false db ticket_id user_id a ha
    simp only [List.mem_singleton] at hb
    subst hb
    intro hcontra
    simp [approvalKeyMatch, hcontra.1, hcontra.2] at hkey
  · intro a ha
    rcases List.mem_append.mp ha with hl | hr
    · exact hwf.2 a (List.mem_of_mem_filter hl)
    · simp only [List.mem_singleton] at hr
      subst hr
      exact hstatus

/-- Claim C8: for every (ticket, user) pair there is at most one PlanApproval
row with a status passing the schema CHECK, and a repeated decision by the
same user on the same ticket replaces the earlier one (last write wins)
instead of adding a second row. -/
theorem c8_plan_approval_upsert :
    ∀ (db : List PlanApproval)
      (newId newId2 ticket_id user_id status status2 : String) (now now2 : Nat),
    approvalsWellFormed db → validApprovalStatus status = true →
    approvalsWellFormed (approve db newId ticket_id user_id status now) ∧
    lookupApproval (approve db newId ticket_id user_id status now) ticket_id user_id
        = some (approveRow newId ticket_id user_id status now) ∧
    ((approve db newId ticket_id user_id status now).filter
        (approvalKeyMatch ticket_id user_id)).length = 1 ∧
    (∀ a ∈ db, approvalKeyMatch ticket_id user_id a = false →
        a ∈ approve db newId ticket_id user_id status now) ∧
    lookupApproval (approve (approve db newId ticket_id user_id status now)
          newId2 ticket_id user_id status2 now2) ticket_id user_id
        = some (approveRow newId2 ticket_id user_id status2 now2) := by
  intro db newId newId2 ticket_id user_id status status2 now now2 hwf hstatus
  exact ⟨approve_wellFormed db newId ticket_id user_id status now hwf hstatus
  , lookupApproval_approve db newId ticket_id user_id status now
  , approve_key_count db newId ticket_id user_id status now
  , approve_preserves_other_keys db newId ticket_id user_id status now
  , lookupApproval_approve _ newId2 ticket_id user_id status2 now2⟩

/-- Witness for C8 at a concrete one-row table: a user approving and then
rejecting the same ticket ends with a single rejected row. -/
theorem c8_plan_approval_upsert_witness :
    approvalsWellFormed (approve c8Db "a1" "t9" "u1" "approved" 5) ∧
    lookupApproval (approve c8Db "a1" "t9" "u1" "approved" 5) "t9" "u1"
        = some (approveRow "a1" "t9" "u1" "approved" 5) ∧
    ((approve c8Db "a1" "t9" "u1" "approved" 5).filter
        (approvalKeyMatch "t9" "u1")).length = 1 ∧
    (∀ a ∈ c8Db, approvalKeyMatch "t9" "u1" a = false →
        a ∈ approve c8Db "a1" "t9" "u1" "approved" 5) ∧
    lookupApproval (approve (approve c8Db "a1" "t9" "u1" "approved" 5)
          "a2" "t9" "u1" "rejected" 6) "t9" "u1"
        = some (approveRow "a2" "t9" "u1" "rejected" 6) :=
  c8_plan_approval_upsert c8Db "a1" "a2" "t9" "u1" "approved" "rejected" 5 6
    ⟨by decide, by decide⟩ (by decide)

/-- Branches 4-5 of the extraction coincide with priorities 4-5 of the
amended claim. -/
theorem logContributionStr_eq (p : JsValue) (raw : String) :
    logContributionStr p raw = amendedTail p raw := by
  cases p <;> rfl

/-- Branch 3 of the extraction coincides with priority 3 of the amended
claim. -/
theorem logContributionMsg_eq (p : JsValue) (raw : String) :
    logContributionMsg p raw = amendedMsgTail p raw := by
  unfold logContributionMsg amendedMsgTail
  rcases hm : jget p "message" with _ | m
  · have hmt : messageText p = none := by
      unfold messageText
      rw [hm]
    rw [hmt]
    exact logContributionStr_eq p raw
  · have hmt : messageText p
        = (if jsTruthy m = true then some (jsToStringForJoin (some m)) else none) := by
      unfold messageText
      rw [hm]
    rw [hmt]
    clear hmt hm
    show (if jsTruthy m = true
          then some (jsToStringForJoin (some m)) else logContributionStr p raw)
        = (match (if jsTruthy m = true then some (jsToStringForJoin (some m)) else none) with
           | some mtext => some mtext
           | none => amendedTail p raw)
    by_cases ht : jsTruthy m = true
    · rw [if_pos ht, if_pos ht]
    · rw [if_neg ht, if_neg ht]
      exact logContributionStr_eq p raw

/-- Branch 2 of the extraction coincides with priority 2 of the amended
claim. -/
theorem logContribution_result_eq (p : JsValue) (raw : String) :
    (match jget p "result" with
     | some (JsValue.jstr r) => if r = "" then logContributionMsg p raw else some r
     | _ => logContributionMsg p raw)
      = amendedResultTail p raw := by
  unfold amendedResultTail
  rcases hr : jget p "result" with _ | w
  · have hf : flatResultStr p = none := by
      unfold flatResultStr
      rw [hr]
    rw [hf]
    exact logContributionMsg_eq p raw
  · cases w with
    | jstr r =>
      have hf : flatResultStr p = (if r = "" then none else some r) := by
        unfold flatResultStr
        rw [hr]
      rw [hf]
      clear hf hr
      show (if r = "" then logContributionMsg p raw else some r)
          = (match (if r = "" then none else some r) with
             | some r2 => some r2
             | none => amendedMsgTail p raw)
      by_cases hrr : r = ""
      · rw [if_pos hrr, if_pos hrr]
        exact logContributionMsg_eq p raw
      · rw [if_neg hrr, if_neg hrr]
    | jnull =>
      have hf : flatResultStr p = none := by
        unfold flatResultStr
        rw [hr]
      rw [hf]
      exact logContributionMsg_eq p raw
    | jbool b =>
      have hf : flatResultStr p = none := by
        unfold flatResultStr
        rw [hr]
      rw [hf]
      exact logContributionMsg_eq p raw
    | jnum n =>
      have hf : flatResultStr p = none := by
        unfold flatResultStr
        rw [hr]
      rw [hf]
      exact logContributionMsg_eq p raw
    | jarr elems =>
      have hf : flatResultStr p = none := by
        unfold flatResultStr
        rw [hr]
      rw [hf]
      exact logContributionMsg_eq p raw
    | jobj fields =>
      have hf : flatResultStr p = none := by
        unfold flatResultStr
        rw [hr]
      rw [hf]
      exact logContributionMsg_eq p raw

/-- Counterexample to claim C3 as frozen: a result-typed log whose content
parses to an empty object matches none of the first three priorities, yet
the code contributes no text at all instead of falling back to the raw
content, so the merged analysis text is empty while the claim's priority
order yields the raw content. -/
theorem c3_counterexample :
    c3Log.messageType = "result" ∧
    mergeAssistantLogs c3Parse [c3Log] = "" ∧
    logContribution (c3Parse c3Log.content) c3Log.content = none ∧
    claimC3Extract (c3Parse c3Log.content) c3Log.content = "\x7b\x7d" := by
  decide

/-- Claim C3 amended: the code's per-event extraction follows the priority
order with these guards — (1) a content list contributes its concatenated
text fragments only when non-blank and otherwise suppresses the event's
text; (2) else a result property only when it is a non-empty string; (3)
else a message property only when truthy; (4) else a parsed value that is
itself a string; (5) else the raw content, used exactly when parsing failed
or produced a falsy value, while a truthy parsed value matching none of the
above contributes no text. -/
theorem c3_extraction_priority_amended :
    ∀ (parsed : Option JsValue) (raw : String),
    logContribution parsed raw = amendedC3Extract parsed raw := by
  intro parsed raw
  cases parsed with
  | none => rfl
  | some p =>
    simp only [logContribution, amendedC3Extract]
    rcases hcv : jget p "content" with _ | jv
    · have hc : contentFragments p = none := by
        unfold contentFragments
        rw [hcv]
      rw [hc]
      exact logContribution_result_eq p raw
    · cases jv with
      | jarr items =>
        have hc : contentFragments p = some (concatTextFragments items) := by
          unfold contentFragments
          rw [hcv]
        rw [hc]
      | jnull =>
        have hc : contentFragments p = none := by
          unfold contentFragments
          rw [hcv]
        rw [hc]
        exact logContribution_result_eq p raw
      | jbool b =>
        have hc : contentFragments p = none := by
          unfold contentFragments
          rw [hcv]
        rw [hc]
        exact logContribution_result_eq p raw
      | jnum n =>
        have hc : contentFragments p = none := by
          unfold contentFragments
          rw [hcv]
        rw [hc]
        exact logContribution_result_eq p raw
      | jstr s =>
        have hc : contentFragments p = none := by
          unfold contentFragments
          rw [hcv]
        rw [hc]
        exact logContribution_result_eq p raw
      | jobj fields =>
        have hc : contentFragments p = none := by
          unfold contentFragments
          rw [hcv]
        rw [hc]
        exact logContribution_result_eq p raw

end ExplainSource
